import Mathlib

/-!
# Verification of the pymodbus3 core against its specification

Shallow embedding of the pymodbus3 framers (`pymodbus3/transaction.py`),
the bit-read PDUs (`pymodbus3/bit_read_message.py`), the client decoder
(`pymodbus3/factory.py`), the asynchronous client disconnect handler
(`pymodbus3/client/async.py`) and the asynchronous server request handler
(`pymodbus3/server/async.py`).

Byte strings are embedded as `List Nat` (each element a byte value).
Methods that mutate their object are embedded as functions from a state
structure to a (result, new state) pair; methods that can raise return
`Except PyError`.  The integrity primitives `compute_crc` / `compute_lrc`
live in `pymodbus3/utilities.py`, which is not part of the sources here;
they are modelled from the specification (section 4.1) and cross-checked
against the concrete frames the spec lists (S2, S3, S4).
-/

namespace Pymodbus3

/-- Python exception kinds that the embedded code can raise. -/
inductive PyError where
  | typeError
  | indexError
  | structError
  | valueError
  | modbusException
  | attributeError
  | runtimeError
deriving DecidableEq, Repr

/-! ## Python slicing and searching primitives -/

/-- Clamp a (possibly negative) Python slice bound into `[0, n]`:
negative indices count from the end of the sequence. -/
def pyBound (n : Nat) (i : Int) : Nat :=
  if i < 0 then ((n : Int) + i).toNat else min i.toNat n

/-- Python slice `l[a:b]` (step 1), with Python's clamping of negative
and out-of-range bounds. -/
def pySlice (l : List Nat) (a b : Int) : List Nat :=
  (l.take (pyBound l.length b)).drop (pyBound l.length a)

/-- First index (from position 0) at which `pat` occurs as a contiguous
sub-list of `l`, or `none`.  Mirrors the search done by `bytes.find`. -/
def pyFindAux : List Nat → List Nat → Option Nat
  | l, pat =>
    match l with
    | [] => if pat = [] then some 0 else none
    | _ :: xs =>
      if pat.isPrefixOf l then some 0
      else (pyFindAux xs pat).map (· + 1)

/-- Python `bytes.find(pat)`: index of the first occurrence or `-1`. -/
def pyFind (l pat : List Nat) : Int :=
  match pyFindAux l pat with
  | some i => (i : Int)
  | none => -1

/-- Byte at index `i` (only used under guards that make `i` in range). -/
def byteAt (l : List Nat) (i : Nat) : Nat := l.getD i 0

/-- Big-endian `u16` read at index `i`, as done by `struct.unpack`. -/
def u16At (l : List Nat) (i : Nat) : Nat := byteAt l i * 256 + byteAt l (i + 1)

/-- Embeds `struct.pack('>H', v)` for an in-range `v` (claims only use `v < 0x10000`). -/
def packU16 (v : Nat) : List Nat := [v / 256 % 256, v % 256]

/-- Embeds `struct.pack('>B', v)` for an in-range `v` (claims only use `v < 0x100`). -/
def packU8 (v : Nat) : List Nat := [v % 256]

/-- Embeds `struct.unpack('>B', l)`: raises `struct.error` unless `l` is one byte. -/
def unpackU8 (l : List Nat) : Except PyError Nat :=
  match l with
  | [b] => .ok b
  | _ => .error .structError

/-- Embeds `struct.unpack('>H', l)`: raises `struct.error` unless `l` is two bytes. -/
def unpackU16 (l : List Nat) : Except PyError Nat :=
  match l with
  | [a, b] => .ok (a * 256 + b)
  | _ => .error .structError

/-- Value of an ASCII hex digit, or `none`. -/
def hexDigitVal (c : Nat) : Option Nat :=
  if 0x30 ≤ c ∧ c ≤ 0x39 then some (c - 0x30)
  else if 0x41 ≤ c ∧ c ≤ 0x46 then some (c - 0x41 + 10)
  else if 0x61 ≤ c ∧ c ≤ 0x66 then some (c - 0x61 + 10)
  else none

/-- Embeds `binascii.a2b_hex`: decode pairs of hex digits; raises on odd length
or a non-hex character. -/
def a2bHex : List Nat → Except PyError (List Nat)
  | [] => .ok []
  | [_] => .error .valueError
  | a :: b :: rest =>
    match hexDigitVal a, hexDigitVal b with
    | some x, some y =>
      match a2bHex rest with
      | .ok tail => .ok ((x * 16 + y) :: tail)
      | .error e => .error e
    | _, _ => .error .valueError

/-- Embeds `int(s, 16)` on a non-empty all-hex byte string; raises `ValueError`
otherwise (the uses in the framers parse two-digit slices). -/
def intHex (l : List Nat) : Except PyError Nat :=
  match l with
  | [] => .error .valueError
  | _ =>
    l.foldl
      (fun acc c =>
        match acc, hexDigitVal c with
        | .ok v, some d => .ok (v * 16 + d)
        | _, _ => .error .valueError)
      (.ok 0)

/-! ## Integrity codes (modelled from the spec)

`pymodbus3/utilities.py` is not among the sources; `compute_crc`,
`check_crc`, `compute_lrc` and `check_lrc` are modelled from
specification section 4.1 and section 6. -/

/-- One shift step of the reflected CRC-16: if the low bit is set, shift
right and xor with the Modbus polynomial `0xA001`, else just shift. -/
def crcRound (crc : Nat) : Nat :=
  if crc % 2 = 1 then (crc / 2) ^^^ 0xA001 else crc / 2

/-- Per-byte CRC update: xor the byte in, then eight shift rounds. -/
def crcByte (crc b : Nat) : Nat :=
  crcRound (crcRound (crcRound (crcRound
    (crcRound (crcRound (crcRound (crcRound (crc ^^^ b))))))))

/-- Modelled from the spec: raw CRC-16 register, initial value `0xFFFF`,
polynomial `0xA001`, per-byte update xor then 8 right shifts (spec 4.1). -/
def computeCrcRaw (data : List Nat) : Nat :=
  data.foldl crcByte 0xFFFF

/-- Modelled from the spec: `utilities.compute_crc`.  The register is
byte-swapped before returning so that packing it big-endian puts the low
CRC byte first on the wire, as spec section 6 requires ("CRC is
transmitted little-endian"); spec frames S3/S4 pin this orientation. -/
def compute_crc (data : List Nat) : Nat :=
  let crc := computeCrcRaw data
  ((crc <<< 8) ||| (crc >>> 8)) &&& 0xFFFF

/-- Modelled from the spec: `utilities.check_crc` compares the computed
CRC with the expected one. -/
def check_crc (data : List Nat) (check : Nat) : Bool :=
  compute_crc data == check

/-- Modelled from the spec: `utilities.compute_lrc` — sum of the bytes
modulo 256, negated (two's complement), low byte (spec 4.1). -/
def compute_lrc (data : List Nat) : Nat :=
  (256 - (data.foldl (· + ·) 0) % 256) % 256

/-- Modelled from the spec: `utilities.check_lrc` compares the computed
LRC with the expected one. -/
def check_lrc (data : List Nat) (check : Nat) : Bool :=
  compute_lrc data == check

/-! ## MBAP / TCP socket framer (`ModbusSocketFramer`) -/

/-- The MBAP header fields kept by the socket framer (`self.header`). -/
structure MbapHeader where
  tid : Nat
  pid : Nat
  len : Nat
  uid : Nat
deriving DecidableEq, Repr

/-- State of a `ModbusSocketFramer`: the byte buffer and the decoded
header.  `header_size` is the constant 7. -/
structure SocketFramer where
  buffer : List Nat
  header : MbapHeader
deriving DecidableEq, Repr

def socketHeaderSize : Nat := 7

/-- A freshly constructed `ModbusSocketFramer`. -/
def socketFramerNew : SocketFramer :=
  { buffer := [], header := ⟨0, 0, 0, 0⟩ }

/-- Embeds `ModbusSocketFramer.add_to_frame`. -/
def socketAddToFrame (s : SocketFramer) (message : List Nat) : SocketFramer :=
  { s with buffer := s.buffer ++ message }

/-- Embeds `ModbusSocketFramer.is_frame_ready`. -/
def socketIsFrameReady (s : SocketFramer) : Bool :=
  s.buffer.length > socketHeaderSize

/-- Embeds `ModbusSocketFramer.get_frame_size` = `header_size + max(0, len - 1)`
(the Nat subtraction already truncates at 0 like Python's `max`). -/
def socketGetFrameSize (s : SocketFramer) : Nat :=
  socketHeaderSize + (s.header.len - 1)

/-- Embeds `ModbusSocketFramer.advance_frame`: drop the current frame and reset
the header. -/
def socketAdvanceFrame (s : SocketFramer) : SocketFramer :=
  { buffer := s.buffer.drop (socketGetFrameSize s), header := ⟨0, 0, 0, 0⟩ }

/-- Embeds `ModbusSocketFramer.check_frame`: unpack `>HHHB` once 7 bytes are
buffered; a `len < 2` frame is skipped via `advance_frame`; otherwise the
frame is complete when `buffer_len - 7 + 1 >= len`. -/
def socketCheckFrame (s : SocketFramer) : Bool × SocketFramer :=
  if socketHeaderSize ≤ s.buffer.length then
    let s1 : SocketFramer :=
      { s with
        header :=
          ⟨u16At s.buffer 0, u16At s.buffer 2, u16At s.buffer 4, byteAt s.buffer 6⟩ }
    if s1.header.len < 2 then (false, socketAdvanceFrame s1)
    else if s1.header.len ≤ s.buffer.length - socketHeaderSize + 1 then (true, s1)
    else (false, s1)
  else (false, s)

/-- Embeds `ModbusSocketFramer.get_frame` = `buffer[7:frame_size]`. -/
def socketGetFrame (s : SocketFramer) : List Nat :=
  (s.buffer.take (socketGetFrameSize s)).drop socketHeaderSize

/-- Embeds `ModbusSocketFramer.build_packet`: `>HHHBB` header (length =
payload length + 2) followed by the encoded payload. -/
def socketBuildPacket (tid pid uid function_code : Nat) (data : List Nat) : List Nat :=
  packU16 tid ++ packU16 pid ++ packU16 (data.length + 2) ++
    packU8 uid ++ packU8 function_code ++ data

/-- Embeds `ReadBitsRequestBase.encode` (`bit_read_message.py`): `>HH` of
address and count. -/
def readBitsEncode (address count : Nat) : List Nat :=
  packU16 address ++ packU16 count

/-! ## ReadCoils execute (`bit_read_message.py`) -/

/-- The datastore contract consumed by `execute` (spec section 6):
`validate` and `get_values` over a function-code class. -/
structure MbContext where
  validate : Nat → Nat → Nat → Bool
  get_values : Nat → Nat → Nat → List Bool

/-- Embeds `pdu.ModbusExceptions.IllegalAddress` (spec section 3). -/
def IllegalAddress : Nat := 2

/-- Embeds `pdu.ModbusExceptions.IllegalValue` (spec section 3). -/
def IllegalValue : Nat := 3

/-- Embeds `pdu.ModbusExceptions.SlaveFailure` (spec section 3). -/
def SlaveFailure : Nat := 4

/-- Result of running a `ReadCoilsRequest` against a datastore: either an
in-band exception response or a `ReadCoilsResponse` holding the values. -/
inductive ReadCoilsResult where
  | exceptionResponse (function_code exception_code : Nat)
  | response (values : List Bool)

/-- Modelled from the spec: `pdu.ModbusRequest.do_exception` (`pdu.py` is
not among the sources) builds an `ExceptionResponse` whose function code
is the original code with the high bit set and whose payload is the
single exception code byte (spec section 3). -/
def doException (function_code code : Nat) : ReadCoilsResult :=
  .exceptionResponse (function_code ||| 0x80) code

/-- Embeds `ReadCoilsRequest.function_code`. -/
def readCoilsFunctionCode : Nat := 1

/-- Embeds `ReadCoilsRequest.execute`: count outside `[1, 0x7d0]` gives
`IllegalValue`; a failed `context.validate` gives `IllegalAddress`;
otherwise the values read from the context are returned. -/
def readCoilsExecute (address count : Nat) (context : MbContext) : ReadCoilsResult :=
  if ¬ (1 ≤ count ∧ count ≤ 0x7d0) then
    doException readCoilsFunctionCode IllegalValue
  else if ¬ (context.validate readCoilsFunctionCode address count = true) then
    doException readCoilsFunctionCode IllegalAddress
  else
    .response (context.get_values readCoilsFunctionCode address count)

/-! ## Client decoder (`factory.py`, `ClientDecoder._helper`) -/

/-- The function codes of the response classes in
`ClientDecoder.__function_table`, i.e. the keys of `self.__lookup`. -/
def clientFunctionCodes : List Nat :=
  [3, 2, 4, 1, 15, 16, 6, 5, 23, 8, 7, 11, 12, 17, 20, 21, 22, 24, 43]

/-- A decoded client-side response.  The response classes for the known
function codes live in modules that are not among the sources, so their
field decoding is kept abstract as the raw payload; the exception branch
(the subject of claim C3) is embedded exactly. -/
inductive ClientDecoded where
  | exceptionResponse (function_code exception_code : Nat)
  | normalResponse (function_code : Nat) (payload : List Nat)
deriving DecidableEq, Repr

/-- Modelled from the spec: `pdu.ExceptionResponse.decode` (`pdu.py` is
not among the sources) reads the exception code from the first payload
byte (spec 4.3: "the payload byte as exception code"); an empty payload
makes the byte access raise. -/
def exceptionResponseDecode (function_code : Nat) (payload : List Nat) :
    Except PyError ClientDecoded :=
  match payload with
  | [] => .error .indexError
  | b :: _ => .ok (.exceptionResponse function_code b)

/-- Embeds `ClientDecoder._helper`: read the function code at offset 0; when it
is strictly greater than 0x80, build an `ExceptionResponse` with the
high bit stripped and decode the payload; otherwise look the code up and
raise `ModbusException` ("Unknown response") when it is unknown. -/
def clientDecoderHelper (data : List Nat) : Except PyError ClientDecoded :=
  match data with
  | [] => .error .indexError
  | function_code :: payload =>
    if 0x80 < function_code then
      exceptionResponseDecode (function_code &&& 0x7f) payload
    else if function_code ∈ clientFunctionCodes then
      .ok (.normalResponse function_code payload)
    else
      .error .modbusException

/-! ## ASCII framer (`ModbusAsciiFramer`) -/

/-- The serial header dictionary kept by the ASCII framer.  The source
initialises `lrc` with the placeholder string `'0000'` and overwrites it
with an int in `check_frame`; it is never read before being overwritten,
so it is embedded as a `Nat` starting at 0. -/
structure AsciiHeader where
  lrc : Nat
  len : Nat
  uid : Nat
deriving DecidableEq, Repr

/-- State of a `ModbusAsciiFramer` (`header_size` is the constant 2,
start delimiter `':'` = 0x3A, end delimiter `"\r\n"` = 0x0D 0x0A). -/
structure AsciiFramer where
  buffer : List Nat
  header : AsciiHeader
deriving DecidableEq, Repr

def asciiHeaderSize : Nat := 2

/-- A freshly constructed `ModbusAsciiFramer`. -/
def asciiFramerNew : AsciiFramer :=
  { buffer := [], header := ⟨0, 0, 0⟩ }

/-- Embeds `ModbusAsciiFramer.add_to_frame`. -/
def asciiAddToFrame (s : AsciiFramer) (message : List Nat) : AsciiFramer :=
  { s with buffer := s.buffer ++ message }

/-- Embeds `ModbusAsciiFramer.check_frame`: locate the start delimiter
(dropping leading garbage), locate the end delimiter, parse uid and LRC
as hex pairs, hex-decode the body and verify the LRC.  A parse failure
raises (the source then leaves a partially updated header; the error
value abstracts that state, which no claim observes). -/
def asciiCheckFrame (s : AsciiFramer) : Except PyError (Bool × AsciiFramer) :=
  let start0 := pyFind s.buffer [0x3A]
  if start0 = -1 then .ok (false, s)
  else
    let buffer := if 0 < start0 then s.buffer.drop start0.toNat else s.buffer
    let start : Int := if 0 < start0 then 0 else start0
    let endI := pyFind buffer [0x0D, 0x0A]
    if endI = -1 then .ok (false, { s with buffer := buffer })
    else
      match intHex (pySlice buffer 1 3) with
      | .error e => .error e
      | .ok uid =>
        match intHex (pySlice buffer (endI - 2) endI) with
        | .error e => .error e
        | .ok lrc =>
          match a2bHex (pySlice buffer (start + 1) (endI - 2)) with
          | .error e => .error e
          | .ok data =>
            .ok (check_lrc data lrc,
              { buffer := buffer, header := ⟨lrc, endI.toNat, uid⟩ })

/-- Embeds `ModbusAsciiFramer.get_frame`: hex-decode `buffer[3:len-2]` when the
end offset is positive, else return the empty byte string. -/
def asciiGetFrame (s : AsciiFramer) : Except PyError (List Nat) :=
  let start : Int := (asciiHeaderSize : Int) + 1
  let endI : Int := (s.header.len : Int) - 2
  let data := pySlice s.buffer start endI
  if 0 < endI then a2bHex data
  else .ok []

/-! ## RTU and Binary framers (`ModbusRtuFramer`, `ModbusBinaryFramer`) -/

/-- A dynamically typed Python value as stored in `result.unit_id`:
either an int or a tuple of ints (the value `struct.unpack` returns). -/
inductive PyVal where
  | intVal (n : Nat)
  | tupleVal (t : List Nat)
deriving DecidableEq, Repr

/-- The header fields a decoded PDU receives from `populate_result`.
Only `unit_id` is written by the serial framers. -/
structure DecodedPdu where
  unit_id : PyVal
deriving DecidableEq, Repr

/-- The RTU framer's header dictionary.  The source initialises it as
`{'lrc': '0000', 'len': 0, 'uid': 0}`; the `lrc` placeholder string is
never read, and `populate_header` adds a `crc` entry holding a byte
slice of the buffer. -/
structure RtuHeader where
  len : Nat
  uid : Nat
  crc : List Nat
deriving DecidableEq, Repr

/-- State of a `ModbusRtuFramer` (`header_size` is the constant 1). -/
structure RtuFramer where
  buffer : List Nat
  header : RtuHeader
deriving DecidableEq, Repr

def rtuHeaderSize : Nat := 1

/-- A freshly constructed `ModbusRtuFramer`. -/
def rtuFramerNew : RtuFramer :=
  { buffer := [], header := ⟨0, 0, []⟩ }

/-- Embeds `ModbusRtuFramer.get_frame`: slice `buffer[1:len-2]` and return it
when the end offset is positive, else return the empty frame.  The
source method performs no assignment, so the state component of the
result is always the input state; the slice is total, so nothing is
raised. -/
def rtuGetFrame (s : RtuFramer) : List Nat × RtuFramer :=
  let start : Int := (rtuHeaderSize : Int)
  let endI : Int := (s.header.len : Int) - 2
  let buffer := pySlice s.buffer start endI
  if 0 < endI then (buffer, s) else ([], s)

/-- Embeds `ModbusRtuFramer.populate_result`: copy the header uid (an int)
into the result. -/
def rtuPopulateResult (s : RtuFramer) (result : DecodedPdu) : DecodedPdu :=
  { result with unit_id := .intVal s.header.uid }

/-- Embeds `ModbusAsciiFramer.populate_result`: copy the header uid (an int)
into the result. -/
def asciiPopulateResult (s : AsciiFramer) (result : DecodedPdu) : DecodedPdu :=
  { result with unit_id := .intVal s.header.uid }

/-- The Binary framer's header dictionary: `crc` and `len` hold ints,
while `check_frame` stores the full tuple returned by
`struct.unpack('>B', ...)` into `uid` (it never indexes it with `[0]`),
so `uid` holds an int only until the first accepted frame. -/
structure BinaryHeader where
  crc : Nat
  len : Nat
  uid : PyVal
deriving DecidableEq, Repr

/-- State of a `ModbusBinaryFramer` (`header_size` is the constant 2,
start delimiter `'{'` = 0x7B, end delimiter `'}'` = 0x7D). -/
structure BinaryFramer where
  buffer : List Nat
  header : BinaryHeader
deriving DecidableEq, Repr

def binaryHeaderSize : Nat := 2

/-- A freshly constructed `ModbusBinaryFramer`. -/
def binaryFramerNew : BinaryFramer :=
  { buffer := [], header := ⟨0, 0, .intVal 0⟩ }

/-- Embeds `ModbusBinaryFramer.check_frame`: find the start delimiter, trim
leading garbage (the source does not reset the local `start` variable
after trimming), find the end delimiter, unpack the uid byte as a
one-element tuple and the CRC word, and verify the CRC over
`buffer[start+1:end-2]`. -/
def binaryCheckFrame (s : BinaryFramer) : Except PyError (Bool × BinaryFramer) :=
  let start := pyFind s.buffer [0x7B]
  if start = -1 then .ok (false, s)
  else
    let buffer := if 0 < start then s.buffer.drop start.toNat else s.buffer
    let endI := pyFind buffer [0x7D]
    if endI = -1 then .ok (false, { s with buffer := buffer })
    else
      match unpackU8 (pySlice buffer 1 2) with
      | .error e => .error e
      | .ok uidByte =>
        match unpackU16 (pySlice buffer (endI - 2) endI) with
        | .error e => .error e
        | .ok crc =>
          let data := pySlice buffer (start + 1) (endI - 2)
          .ok (check_crc data crc,
            { buffer := buffer, header := ⟨crc, endI.toNat, .tupleVal [uidByte]⟩ })

/-- Embeds `ModbusBinaryFramer.get_frame`: `buffer[3:len-2]` when the end
offset is positive, else the empty frame. -/
def binaryGetFrame (s : BinaryFramer) : List Nat :=
  let start : Int := (binaryHeaderSize : Int) + 1
  let endI : Int := (s.header.len : Int) - 2
  let buffer := pySlice s.buffer start endI
  if 0 < endI then buffer else []

/-- Embeds `ModbusBinaryFramer.populate_result`: copy the header uid — the
tuple stored by `check_frame` — into the result. -/
def binaryPopulateResult (s : BinaryFramer) (result : DecodedPdu) : DecodedPdu :=
  { result with unit_id := s.header.uid }

/-- Embeds `ModbusBinaryFramer._preflight`: duplicate every byte equal to one
of the delimiters `}` (0x7D) or `{` (0x7B). -/
def preflight : List Nat → List Nat
  | [] => []
  | d :: rest =>
    if d = 0x7D ∨ d = 0x7B then d :: d :: preflight rest
    else d :: preflight rest

/-- Embeds `ModbusBinaryFramer.build_packet`: uid, function code and the
escaped payload, followed by the CRC over those bytes, wrapped in the
`{` / `}` delimiters (the CRC itself is not escaped). -/
def binaryBuildPacket (uid function_code : Nat) (encoded : List Nat) : List Nat :=
  let data := preflight encoded
  let packet := packU8 uid ++ packU8 function_code ++ data
  let packet2 := packet ++ packU16 (compute_crc packet)
  [0x7B] ++ packet2 ++ [0x7D]

/-- Embeds `ModbusBinaryFramer.add_to_frame`. -/
def binaryAddToFrame (s : BinaryFramer) (message : List Nat) : BinaryFramer :=
  { s with buffer := s.buffer ++ message }

/-! ## Keyed transaction manager (`DictTransactionManager`)

The transaction table is a Python dict `tid -> handle`, embedded as an
insertion-ordered association list with unique keys, exactly the
observable structure of a dict. -/

/-- Python `d[k]` as an option: the value bound to the key, if any. -/
def dictGet? {α : Type} : List (Nat × α) → Nat → Option α
  | [], _ => none
  | (k0, v0) :: t, k => if k0 = k then some v0 else dictGet? t k

/-- Remove a key's binding (dicts hold each key at most once). -/
def dictRemove {α : Type} : List (Nat × α) → Nat → List (Nat × α)
  | [], _ => []
  | (k0, v0) :: t, k => if k0 = k then dictRemove t k else (k0, v0) :: dictRemove t k

/-- Python `d[k] = v`: overwrite in place when the key exists, append
otherwise (dicts preserve insertion order). -/
def dictSet {α : Type} : List (Nat × α) → Nat → α → List (Nat × α)
  | [], k, v => [(k, v)]
  | (k0, v0) :: t, k, v =>
    if k0 = k then (k, v) :: t else (k0, v0) :: dictSet t k v

/-- Python `d.pop(k, None)`: the bound value (or `none`) and the dict
without the key. -/
def dictPop {α : Type} (t : List (Nat × α)) (k : Nat) : Option α × List (Nat × α) :=
  match dictGet? t k with
  | some v => (some v, dictRemove t k)
  | none => (none, t)

/-- Embeds `DictTransactionManager.add_transaction` (with the tid passed
explicitly, as the asynchronous client does): `transactions[tid] = h`. -/
def addTransaction {α : Type} (t : List (Nat × α)) (handle : α) (tid : Nat) :
    List (Nat × α) :=
  dictSet t tid handle

/-- Embeds `DictTransactionManager.get_transaction`: `transactions.pop(tid, None)`
— retrieve and remove. -/
def getTransaction {α : Type} (t : List (Nat × α)) (tid : Nat) :
    Option α × List (Nat × α) :=
  dictPop t tid

/-- Embeds `DictTransactionManager.del_transaction`: `transactions.pop(tid, None)`
with the value discarded. -/
def delTransaction {α : Type} (t : List (Nat × α)) (tid : Nat) : List (Nat × α) :=
  (dictPop t tid).2

/-! ## Asynchronous TCP client disconnect (`client/async.py`) -/

/-- What `__iter__` hands back: either a true iterator (something with
`__next__`, e.g. `iter(list)`) or a bare iterable view without
`__next__` (e.g. `dict.keys()`). -/
inductive PyIterable (α : Type) where
  | iterator (items : List α)
  | keysView (items : List α)

/-- Python `list(x)`: calls `iter(x)`, which invokes `type(x).__iter__`
and raises `TypeError` when the returned object is not an iterator
(`dict_keys` has no `__next__`). -/
def pyListOf {α : Type} : PyIterable α → Except PyError (List α)
  | .iterator items => .ok items
  | .keysView _ => .error .typeError

/-- Embeds `DictTransactionManager.__iter__`: `return self.transactions.keys()`
— a `dict_keys` view, not an iterator. -/
def dictManagerIter {α : Type} (t : List (Nat × α)) : PyIterable Nat :=
  .keysView (t.map Prod.fst)

/-- Embeds `FifoTransactionManager.__iter__`: `return iter(self.transactions)`
— a genuine list iterator. -/
def fifoManagerIter {α : Type} (t : List α) : PyIterable α :=
  .iterator t

/-- State of a `ModbusClientProtocol` over the socket framer: connected
flag, the keyed transaction table (handles stand for the pending
Deferreds), and — for observing notifications — the handles errbacked
with a `ConnectionException`, in order. -/
structure AsyncClientState where
  connected : Bool
  transactions : List (Nat × Nat)
  errbacked : List Nat
deriving DecidableEq, Repr

/-- The loop body of `connection_lost`: for each tid, pop the handle and
errback it; popping a missing tid would make `.errback` an attribute
access on `None`. -/
def connectionLostLoop : List Nat → AsyncClientState → Except PyError AsyncClientState
  | [], st => .ok st
  | tid :: rest, st =>
    match getTransaction st.transactions tid with
    | (some handle, t') =>
      connectionLostLoop rest
        { st with transactions := t', errbacked := st.errbacked ++ [handle] }
    | (none, _) => .error .attributeError

/-- Embeds `ModbusClientProtocol.connection_lost`: clear the connected flag,
then iterate `list(self.transaction)` failing every pending handle. -/
def connectionLost (st : AsyncClientState) : Except PyError AsyncClientState :=
  let st1 := { st with connected := false }
  match pyListOf (dictManagerIter st1.transactions) with
  | .error e => .error e
  | .ok tids => connectionLostLoop tids st1

/-! ## Asynchronous server request execution (`server/async.py`) -/

/-- The response PDU fields the server path manipulates. -/
structure ServerResponse where
  transaction_id : Nat
  protocol_id : Nat
  unit_id : Nat
  function_code : Nat
  exception_code : Option Nat
  should_respond : Bool
deriving DecidableEq, Repr

/-- Modelled from the spec: `pdu.ModbusRequest.do_exception` on the
server side (`pdu.py` is not among the sources) builds an
`ExceptionResponse` carrying `function_code | 0x80` and the exception
code, with default header fields (spec section 3). -/
def serverDoException (request_function_code code : Nat) : ServerResponse :=
  { transaction_id := 0, protocol_id := 0, unit_id := 0,
    function_code := request_function_code ||| 0x80,
    exception_code := some code, should_respond := true }

/-- The request PDU fields the server path reads. -/
structure ServerRequest where
  transaction_id : Nat
  protocol_id : Nat
  unit_id : Nat
  function_code : Nat
deriving DecidableEq, Repr

/-- Embeds `ModbusTcpProtocol._execute`: run the request (the `outcome`
parameter abstracts `self.factory.store[request.unit_id]` followed by
`request.execute(context)`, which either returns a response — possibly
an in-band exception response — or raises); a raise is converted to a
`SlaveFailure` exception response; then the request's transaction id
and unit id are copied onto whatever response is about to be sent. -/
def serverExecuteRequest (request : ServerRequest)
    (outcome : Except PyError ServerResponse) : ServerResponse :=
  let response :=
    match outcome with
    | .ok r => r
    | .error _ => serverDoException request.function_code SlaveFailure
  { response with
    transaction_id := request.transaction_id,
    unit_id := request.unit_id }

end Pymodbus3

namespace Pymodbus3

/-! ## Claim theorems -/

/-- The concrete TCP packet of claim C1 / spec scenario S1. -/
def c1Packet : List Nat := socketBuildPacket 0x1234 0 0xFF 1 (readBitsEncode 1 1)

/-- C1: for a ReadCoilsRequest with tid=0x1234, pid=0, uid=0xFF,
address=1, count=1, `ModbusSocketFramer.build_packet` produces exactly
`12 34 00 00 00 06 FF 01 00 01 00 01`; feeding those bytes to a fresh
MBAP framer yields exactly one ready frame: `check_frame` returns true,
`get_frame` returns the function-code byte 0x01 followed by the payload
`00 01 00 01`, and after advancing the buffer is empty. -/
theorem c1_tcp_read_coils_frame :
    c1Packet = [0x12, 0x34, 0x00, 0x00, 0x00, 0x06, 0xFF, 0x01, 0x00, 0x01, 0x00, 0x01]
    ∧ socketIsFrameReady (socketAddToFrame socketFramerNew c1Packet) = true
    ∧ (socketCheckFrame (socketAddToFrame socketFramerNew c1Packet)).1 = true
    ∧ socketGetFrame (socketCheckFrame (socketAddToFrame socketFramerNew c1Packet)).2
        = [0x01, 0x00, 0x01, 0x00, 0x01]
    ∧ (socketAdvanceFrame (socketCheckFrame (socketAddToFrame socketFramerNew c1Packet)).2).buffer
        = [] := by
  decide

/-- C2: if count is outside `[1, 0x7D0]`, `ReadCoilsRequest.execute`
returns an IllegalValue (3) exception response without consulting
`context.validate` (the result is the same for every context); the
context is consulted only when count is in range, and a failed
`validate` then yields an IllegalAddress (2) exception response. -/
theorem c2_read_coils_range_policy (address count : Nat) (c c' : MbContext) :
    (¬ (1 ≤ count ∧ count ≤ 0x7d0) →
      readCoilsExecute address count c
          = ReadCoilsResult.exceptionResponse 0x81 IllegalValue
        ∧ readCoilsExecute address count c = readCoilsExecute address count c')
    ∧ ((1 ≤ count ∧ count ≤ 0x7d0) →
        c.validate readCoilsFunctionCode address count = false →
        readCoilsExecute address count c
          = ReadCoilsResult.exceptionResponse 0x81 IllegalAddress) := by
  constructor
  · intro hout
    unfold readCoilsExecute
    rw [if_pos hout, if_pos hout]
    exact ⟨rfl, rfl⟩
  · intro hin hval
    unfold readCoilsExecute
    rw [if_neg (by simpa using hin), if_pos (by simp [hval])]
    rfl

/-- Counterexample to C3 as stated: the packet `80 01` has the high bit
of its first byte set (function code 0x80 ∈ [0x80, 0xFF]), yet the
client decoder does not build an `ExceptionResponse` — the code tests
`function_code > 0x80`, so function code 0x80 falls through to the
lookup and fails with a decode error (`ModbusException`). -/
theorem c3_exception_decode_counterexample :
    clientDecoderHelper [0x80, 0x01] = Except.error PyError.modbusException := by
  rfl

/-- C3 amended: for every response packet whose first byte lies in
[0x81, 0xFF] (high bit set and not exactly 0x80) and which carries at
least one payload byte, the client decoder constructs an
`ExceptionResponse` whose function code is the original code with the
high bit stripped and whose exception code is the first payload byte,
without failing. -/
theorem c3_exception_decode (function_code b : Nat) (rest : List Nat)
    (h1 : 0x80 < function_code) (_h2 : function_code ≤ 0xFF) :
    clientDecoderHelper (function_code :: b :: rest)
      = Except.ok (ClientDecoded.exceptionResponse (function_code &&& 0x7f) b) := by
  simp [clientDecoderHelper, exceptionResponseDecode, h1]

/-- Witness for C3 amended: packet `83 02` decodes to the exception
response with function code 3 and exception code 2. -/
theorem c3_exception_decode_witness :
    clientDecoderHelper [0x83, 0x02]
      = Except.ok (ClientDecoded.exceptionResponse 0x03 0x02) :=
  c3_exception_decode 0x83 0x02 [] (by decide) (by decide)

/-- The 17 bytes of the ASCII frame `:F7031389000A60\r\n` (claim C4 /
spec scenario S2). -/
def c4Bytes : List Nat :=
  [0x3A, 0x46, 0x37, 0x30, 0x33, 0x31, 0x33, 0x38, 0x39,
   0x30, 0x30, 0x30, 0x41, 0x36, 0x30, 0x0D, 0x0A]

/-- The fresh ASCII framer fed with the S2 frame. -/
def c4State : AsciiFramer :=
  asciiAddToFrame asciiFramerNew c4Bytes

/-- The framer state after a successful `check_frame` on the S2 frame:
the header records lrc 0x60, frame length 15 and uid 0xF7. -/
def c4Checked : AsciiFramer :=
  { buffer := c4Bytes, header := ⟨0x60, 15, 0xF7⟩ }

/-- Counterexample to C4 as stated: on the S2 frame `check_frame`
succeeds, but `get_frame` does not return the six bytes
`F7 03 13 89 00 0A` — the uid is not part of the returned frame
(`get_frame` hex-decodes `buffer[3:len-2]`, skipping the two uid
digits; the repository's own `test_ascii_framer_transaction_full`
expects `a2b_hex(msg[6:-4])` as well). -/
theorem c4_ascii_frame_counterexample :
    asciiCheckFrame c4State = Except.ok (true, c4Checked)
    ∧ asciiGetFrame c4Checked
        ≠ Except.ok [0xF7, 0x03, 0x13, 0x89, 0x00, 0x0A] := by
  constructor
  · rfl
  · intro h
    exact absurd (Except.ok.inj h) (by decide)

/-- C4 amended: after feeding the 17 bytes of `:F7031389000A60\r\n` to a
fresh `ModbusAsciiFramer`, `check_frame` returns true and `get_frame`
returns the five bytes `03 13 89 00 0A` (function code 0x03 followed by
address 0x1389 and count 0x000A); the uid 0xF7 is stored in the header
and applied separately by `populate_result`. -/
theorem c4_ascii_frame :
    asciiCheckFrame c4State = Except.ok (true, c4Checked)
    ∧ asciiGetFrame c4Checked = Except.ok [0x03, 0x13, 0x89, 0x00, 0x0A] := by
  exact ⟨rfl, rfl⟩

/-! ### Helper lemmas about the dict embedding -/

theorem dictGet?_set {α : Type} (t : List (Nat × α)) (k : Nat) (v : α) :
    dictGet? (dictSet t k v) k = some v := by
  induction t with
  | nil => simp [dictSet, dictGet?]
  | cons q t ih =>
    by_cases hq : q.1 = k
    · simp [dictSet, hq, dictGet?]
    · simp [dictSet, hq, dictGet?, ih]

theorem dictGet?_remove {α : Type} (t : List (Nat × α)) (k : Nat) :
    dictGet? (dictRemove t k) k = none := by
  induction t with
  | nil => rfl
  | cons q t ih =>
    by_cases hq : q.1 = k
    · simp [dictRemove, hq, ih]
    · simp [dictRemove, hq, dictGet?, ih]

/-- C8: for the keyed transaction manager, `add_transaction(h, tid)`
followed by `get_transaction(tid)` returns `h`; a second
`get_transaction(tid)` with no intervening add returns nothing (pop
semantics); and `del_transaction(tid)` on an absent tid leaves the
table unchanged. -/
theorem c8_dict_manager_semantics {α : Type} (t : List (Nat × α)) (tid : Nat)
    (h : α) :
    (getTransaction (addTransaction t h tid) tid).1 = some h
    ∧ (getTransaction ((getTransaction (addTransaction t h tid) tid).2) tid).1 = none
    ∧ (dictGet? t tid = none → delTransaction t tid = t) := by
  have h1 : getTransaction (addTransaction t h tid) tid
      = (some h, dictRemove (dictSet t tid h) tid) := by
    unfold getTransaction addTransaction dictPop
    rw [dictGet?_set]
  refine ⟨by rw [h1], ?_, ?_⟩
  · rw [h1]
    unfold getTransaction dictPop
    rw [dictGet?_remove]
  · intro habs
    unfold delTransaction dictPop
    rw [habs]

/-- Witness for C8: on the table `{1: 10}`, adding handle 77 under tid
5 then getting tid 5 yields 77, a second get yields nothing, and
deleting the absent tid 5 from `{1: 10}` leaves it unchanged. -/
theorem c8_dict_manager_semantics_witness :
    (getTransaction (addTransaction [(1, 10)] 77 5) 5).1 = some 77
    ∧ (getTransaction ((getTransaction (addTransaction [(1, 10)] 77 5) 5).2) 5).1 = none
    ∧ delTransaction [(1, 10)] 5 = [(1, 10)] :=
  ⟨(c8_dict_manager_semantics [(1, 10)] 5 77).1,
   (c8_dict_manager_semantics [(1, 10)] 5 77).2.1,
   (c8_dict_manager_semantics [(1, 10)] 5 77).2.2 (by decide)⟩

/-! ### Helper lemmas about slices and unpacking -/

theorem unpackU8_ok {l : List Nat} {b : Nat} (h : unpackU8 l = Except.ok b) :
    l = [b] := by
  match l with
  | [] => simp [unpackU8] at h
  | [x] =>
    simp [unpackU8] at h
    simp [h]
  | x :: y :: rest => simp [unpackU8] at h

theorem byteAt_one_of_pySlice {l : List Nat} {b : Nat}
    (h : pySlice l 1 2 = [b]) : byteAt l 1 = b := by
  match l with
  | [] => simp [pySlice, pyBound] at h
  | [a] => simp [pySlice, pyBound] at h
  | a :: c :: rest =>
    have h2 : pySlice (a :: c :: rest) 1 2 = [c] := by
      simp [pySlice, pyBound]
    rw [h2] at h
    simpa [byteAt] using h

theorem pySlice_cons_cons (a c : Nat) (t : List Nat) :
    pySlice (a :: c :: t) 1 2 = [c] := by
  simp [pySlice, pyBound]

theorem pyFindAux_append_cons (l : List Nat) (b : Nat) (r : List Nat)
    (h : b ∉ l) : pyFindAux (l ++ b :: r) [b] = some l.length := by
  induction l with
  | nil => simp [pyFindAux, List.isPrefixOf]
  | cons x xs ih =>
    simp only [List.mem_cons, not_or] at h
    have hpre : ([b].isPrefixOf (x :: (xs ++ b :: r))) = false := by
      simp [List.isPrefixOf]
      exact fun hc => absurd hc h.1
    rw [List.cons_append]
    unfold pyFindAux
    rw [hpre]
    simp only [Bool.false_eq_true, if_false, ih h.2, Option.map_some]
    rfl

theorem pyFind_append_cons (l : List Nat) (b : Nat) (r : List Nat)
    (h : b ∉ l) : pyFind (l ++ b :: r) [b] = (l.length : Int) := by
  unfold pyFind
  rw [pyFindAux_append_cons l b r h]

theorem pySlice_extract (l m r : List Nat) :
    pySlice (l ++ (m ++ r)) (l.length : Int) ((l.length : Int) + (m.length : Int)) = m := by
  unfold pySlice pyBound
  have h1 : ¬ ((l.length : Int) < 0) := by omega
  have h2 : ¬ ((l.length : Int) + (m.length : Int) < 0) := by omega
  rw [if_neg h2, if_neg h1]
  have h3 : ((l.length : Int) + (m.length : Int)).toNat = l.length + m.length := by
    omega
  have h4 : ((l.length : Int)).toNat = l.length := by omega
  rw [h3, h4]
  have hlen : (l ++ (m ++ r)).length = l.length + (m.length + r.length) := by simp
  have h5 : min (l.length + m.length) (l ++ (m ++ r)).length = l.length + m.length := by
    omega
  have h6 : min l.length (l ++ (m ++ r)).length = l.length := by
    omega
  rw [h5, h6]
  rw [List.take_append_eq_append_take]
  have h7 : List.take (l.length + m.length) l = l :=
    List.take_of_length_le (by omega)
  rw [h7, Nat.add_sub_cancel_left, List.take_append_eq_append_take]
  rw [List.take_length, Nat.sub_self, List.take_zero, List.append_nil]
  exact List.drop_left l m

theorem unpackU16_packU16 (v : Nat) (h : v < 65536) :
    unpackU16 (packU16 v) = Except.ok v := by
  simp only [unpackU16, packU16, Except.ok.injEq]
  omega

theorem compute_crc_lt (data : List Nat) : compute_crc data < 65536 :=
  Nat.lt_succ_of_le (Nat.and_le_right)

/-- Whenever the Binary framer's `check_frame` accepts a frame, the
header's uid is the one-element tuple of the byte at offset 1 of the
(possibly trimmed) buffer. -/
theorem binaryCheckFrame_ok_uid (s s' : BinaryFramer)
    (h : binaryCheckFrame s = Except.ok (true, s')) :
    s'.header.uid = PyVal.tupleVal [byteAt s'.buffer 1] := by
  unfold binaryCheckFrame at h
  dsimp only at h
  split at h
  · simp at h
  · split at h
    all_goals
      split at h
      · simp at h
      · split at h
        · exact absurd h (by simp)
        · rename_i uidByte hU
          split at h
          · exact absurd h (by simp)
          · simp only [Except.ok.injEq, Prod.mk.injEq] at h
            obtain ⟨-, h2⟩ := h
            subst h2
            dsimp only
            rw [byteAt_one_of_pySlice (unpackU8_ok hU)]

/-- C10: whenever the Binary framer's `check_frame` accepts a frame,
`populate_result` sets the result's `unit_id` to the one-element tuple
produced by unpacking the uid byte, not to the uid integer itself —
unlike the RTU and ASCII framers, whose `populate_result` always stores
the header uid as an integer. -/
theorem c10_binary_uid_is_tuple (s s' : BinaryFramer) (rtu : RtuFramer)
    (asc : AsciiFramer) (r q1 q2 : DecodedPdu)
    (h : binaryCheckFrame s = Except.ok (true, s')) :
    (binaryPopulateResult s' r).unit_id = PyVal.tupleVal [byteAt s'.buffer 1]
    ∧ (rtuPopulateResult rtu q1).unit_id = PyVal.intVal rtu.header.uid
    ∧ (asciiPopulateResult asc q2).unit_id = PyVal.intVal asc.header.uid :=
  ⟨by simpa [binaryPopulateResult] using binaryCheckFrame_ok_uid s s' h, rfl, rfl⟩

/-- The fresh Binary framer fed with the spec S4 frame
`7B 01 03 00 00 00 05 85 C9 7D` (uid byte 0x01). -/
def c10State : BinaryFramer :=
  binaryAddToFrame binaryFramerNew
    [0x7B, 0x01, 0x03, 0x00, 0x00, 0x00, 0x05, 0x85, 0xC9, 0x7D]

/-- The framer state after `check_frame` accepts the S4 frame: the
header uid holds the tuple `(1,)`. -/
def c10Checked : BinaryFramer :=
  { buffer := [0x7B, 0x01, 0x03, 0x00, 0x00, 0x00, 0x05, 0x85, 0xC9, 0x7D],
    header := ⟨0x85C9, 9, .tupleVal [1]⟩ }

set_option maxRecDepth 8192 in
/-- Witness for C10: on the accepted S4 frame, `populate_result` stores
the tuple `(1,)` as `unit_id`, while the RTU and ASCII framers store
integers. -/
theorem c10_binary_uid_is_tuple_witness :
    (binaryPopulateResult c10Checked ⟨.intVal 0⟩).unit_id
        = PyVal.tupleVal [byteAt c10Checked.buffer 1]
    ∧ (rtuPopulateResult rtuFramerNew ⟨.intVal 0⟩).unit_id
        = PyVal.intVal rtuFramerNew.header.uid
    ∧ (asciiPopulateResult asciiFramerNew ⟨.intVal 0⟩).unit_id
        = PyVal.intVal asciiFramerNew.header.uid :=
  c10_binary_uid_is_tuple c10State c10Checked rtuFramerNew asciiFramerNew
    ⟨.intVal 0⟩ ⟨.intVal 0⟩ ⟨.intVal 0⟩ rfl

/-- The payload of the C5 counterexample: a single escaped-delimiter
byte `{` = 0x7B. -/
def c5Payload : List Nat := [0x7B]

/-- The packet the Binary framer emits for uid 1, function code 3 and
payload `7B`: the payload byte is doubled and the CRC is computed over
the escaped bytes. -/
def c5Packet : List Nat := binaryBuildPacket 0x01 0x03 c5Payload

/-- The framer state after a successful `check_frame` on `c5Packet`. -/
def c5Checked : BinaryFramer :=
  { buffer := c5Packet, header := ⟨0x930B, 7, .tupleVal [1]⟩ }

/-- Counterexample to C5 as stated: for the PDU with uid 1, function
code 3 and payload `7B` (which contains the delimiter byte 0x7B),
feeding `build_packet`'s output into a fresh `ModbusBinaryFramer` makes
`check_frame` return true, but `get_frame` returns the still-doubled
bytes `7B 7B` — neither the original function code plus payload
`03 7B` nor the original payload `7B`: nothing is halved on ingest. -/
theorem c5_escape_counterexample :
    c5Packet = [0x7B, 0x01, 0x03, 0x7B, 0x7B, 0x93, 0x0B, 0x7D]
    ∧ binaryCheckFrame (binaryAddToFrame binaryFramerNew c5Packet)
        = Except.ok (true, c5Checked)
    ∧ binaryGetFrame c5Checked = [0x7B, 0x7B]
    ∧ ¬ binaryGetFrame c5Checked = [0x03, 0x7B]
    ∧ ¬ binaryGetFrame c5Checked = [0x7B] :=
  ⟨rfl, rfl, rfl, by decide, by decide⟩

/-- A well-formed emitted binary frame — `{`, uid, function code, body,
CRC over uid+fc+body, `}` — is accepted by `check_frame` when no end
delimiter byte occurs before the closing one, and the header records
the CRC, the frame length and the uid tuple. -/
theorem binaryCheckFrame_accepts (u f : Nat) (mid : List Nat)
    (hn : (0x7D : Nat) ∉ u :: f :: (mid ++ packU16 (compute_crc (u :: f :: mid)))) :
    binaryCheckFrame
        ⟨0x7B :: ((u :: f :: (mid ++ packU16 (compute_crc (u :: f :: mid)))) ++ [0x7D]),
         ⟨0, 0, .intVal 0⟩⟩
      = Except.ok (true,
          ⟨0x7B :: ((u :: f :: (mid ++ packU16 (compute_crc (u :: f :: mid)))) ++ [0x7D]),
           ⟨compute_crc (u :: f :: mid), 5 + mid.length, .tupleVal [u]⟩⟩) := by
  have hcrcBlen : (packU16 (compute_crc (u :: f :: mid))).length = 2 := rfl
  have lc : (mid ++ packU16 (compute_crc (u :: f :: mid))).length = mid.length + 2 := by
    simp [hcrcBlen]
  have hstart :
      pyFind (0x7B :: u :: f :: (mid ++ (packU16 (compute_crc (u :: f :: mid)) ++ [0x7D])))
        [0x7B] = 0 := by
    unfold pyFind pyFindAux
    simp [List.isPrefixOf]
  have hne : (0x7D : Nat) ∉ (0x7B :: u :: f :: (mid ++ packU16 (compute_crc (u :: f :: mid)))) := by
    intro hmem
    rcases List.mem_cons.mp hmem with h1 | h2
    · exact absurd h1 (by decide)
    · exact hn h2
  have hendI :
      pyFind (0x7B :: u :: f :: (mid ++ (packU16 (compute_crc (u :: f :: mid)) ++ [0x7D])))
        [0x7D]
      = (((0x7B :: u :: f :: (mid ++ packU16 (compute_crc (u :: f :: mid)))).length : Int)) := by
    have h := pyFind_append_cons
      (0x7B :: u :: f :: (mid ++ packU16 (compute_crc (u :: f :: mid)))) 0x7D [] hne
    simpa only [List.cons_append, List.append_assoc, List.append_nil] using h
  have hclen :
      ((0x7B :: u :: f :: (mid ++ packU16 (compute_crc (u :: f :: mid)))).length)
        = mid.length + 5 := by
    simp [lc]
  have hsliceU :
      pySlice (0x7B :: u :: f :: (mid ++ (packU16 (compute_crc (u :: f :: mid)) ++ [0x7D])))
        1 2 = [u] :=
    pySlice_cons_cons 0x7B u _
  have hsliceCrc :
      pySlice (0x7B :: u :: f :: (mid ++ (packU16 (compute_crc (u :: f :: mid)) ++ [0x7D])))
        ((((0x7B :: u :: f :: (mid ++ packU16 (compute_crc (u :: f :: mid)))).length : Int)) - 2)
        (((0x7B :: u :: f :: (mid ++ packU16 (compute_crc (u :: f :: mid)))).length : Int))
        = packU16 (compute_crc (u :: f :: mid)) := by
    have h := pySlice_extract (0x7B :: u :: f :: mid)
      (packU16 (compute_crc (u :: f :: mid))) [0x7D]
    have e1 : (((0x7B :: u :: f :: (mid ++ packU16 (compute_crc (u :: f :: mid)))).length : Int)) - 2
        = (((0x7B :: u :: f :: mid).length : Int)) := by
      simp [hclen]
      omega
    have e2 : (((0x7B :: u :: f :: (mid ++ packU16 (compute_crc (u :: f :: mid)))).length : Int))
        = (((0x7B :: u :: f :: mid).length : Int))
          + (((packU16 (compute_crc (u :: f :: mid))).length : Int)) := by
      simp [hclen, hcrcBlen]
      omega
    rw [e1, e2]
    simpa only [List.cons_append, List.append_assoc] using h
  have hsliceData :
      pySlice (0x7B :: u :: f :: (mid ++ (packU16 (compute_crc (u :: f :: mid)) ++ [0x7D])))
        (0 + 1)
        ((((0x7B :: u :: f :: (mid ++ packU16 (compute_crc (u :: f :: mid)))).length : Int)) - 2)
        = u :: f :: mid := by
    have h := pySlice_extract [0x7B] (u :: f :: mid)
      (packU16 (compute_crc (u :: f :: mid)) ++ [0x7D])
    have e2 : (((0x7B :: u :: f :: (mid ++ packU16 (compute_crc (u :: f :: mid)))).length : Int)) - 2
        = (([0x7B] : List Nat).length : Int) + (((u :: f :: mid).length : Int)) := by
      simp [hclen]
      omega
    rw [e2]
    simpa only [List.cons_append, List.append_assoc, List.length_singleton,
      Nat.cast_one, Int.zero_add] using h
  simp only [List.cons_append, List.append_assoc]
  unfold binaryCheckFrame
  dsimp only
  rw [hstart]
  rw [if_neg (by norm_num : ¬ (0 : Int) = -1)]
  rw [if_neg (by norm_num : ¬ (0 : Int) < 0)]
  rw [hendI]
  rw [if_neg (by omega :
    ¬ (((0x7B :: u :: f :: (mid ++ packU16 (compute_crc (u :: f :: mid)))).length : Int)) = -1)]
  rw [hsliceU]
  have hu8 : unpackU8 [u] = Except.ok u := rfl
  rw [hu8]
  rw [hsliceCrc]
  rw [unpackU16_packU16 (compute_crc (u :: f :: mid)) (compute_crc_lt _)]
  rw [hsliceData]
  dsimp only
  have hck : check_crc (u :: f :: mid) (compute_crc (u :: f :: mid)) = true := by
    simp [check_crc]
  rw [hck]
  have htn : (((0x7B :: u :: f :: (mid ++ packU16 (compute_crc (u :: f :: mid)))).length : Int)).toNat
      = 5 + mid.length := by
    omega
  simp [hclen]
  omega

/-- Running `get_frame` on a state whose header length covers uid, function
code, body and CRC returns exactly the body bytes. -/
theorem binaryGetFrame_accepted (u f c : Nat) (mid : List Nat) (uidv : PyVal) :
    binaryGetFrame
        ⟨0x7B :: ((u :: f :: (mid ++ packU16 c)) ++ [0x7D]),
         ⟨c, 5 + mid.length, uidv⟩⟩ = mid := by
  simp only [List.cons_append, List.append_assoc]
  unfold binaryGetFrame
  dsimp only
  rw [if_pos (by push_cast; omega : (0 : Int) < ((5 + mid.length : Nat) : Int) - 2)]
  have e1 : ((binaryHeaderSize : Nat) : Int) + 1 = (([0x7B, u, f] : List Nat).length : Int) := by
    simp [binaryHeaderSize]
  have e2 : ((5 + mid.length : Nat) : Int) - 2
      = (([0x7B, u, f] : List Nat).length : Int) + ((mid.length : Int)) := by
    push_cast
    simp
    omega
  rw [e1, e2]
  have h := pySlice_extract [0x7B, u, f] mid (packU16 c ++ [0x7D])
  simpa only [List.cons_append, List.nil_append] using h

/-- C5 amended: the Binary framer escapes on emit only.  For every PDU
whose encoded payload contains the delimiter byte 0x7B, as long as no
end-delimiter byte 0x7D occurs among the emitted uid, function code,
escaped payload and CRC bytes, feeding `build_packet`'s output into a
fresh `ModbusBinaryFramer` makes `check_frame` return true, but
`get_frame` returns the still-doubled escaped payload (without the
function code), not the original payload: nothing is halved on ingest. -/
theorem c5_binary_escaping_emit_only (uid fc : Nat) (payload : List Nat)
    (hu : uid < 256) (hf : fc < 256) (_hmem : (0x7B : Nat) ∈ payload)
    (hno : (0x7D : Nat) ∉ uid :: fc :: (preflight payload
        ++ packU16 (compute_crc (uid :: fc :: preflight payload)))) :
    binaryCheckFrame (binaryAddToFrame binaryFramerNew (binaryBuildPacket uid fc payload))
      = Except.ok (true,
          ⟨0x7B :: ((uid :: fc :: (preflight payload
              ++ packU16 (compute_crc (uid :: fc :: preflight payload)))) ++ [0x7D]),
           ⟨compute_crc (uid :: fc :: preflight payload),
            5 + (preflight payload).length, .tupleVal [uid]⟩⟩)
    ∧ binaryGetFrame
        ⟨0x7B :: ((uid :: fc :: (preflight payload
            ++ packU16 (compute_crc (uid :: fc :: preflight payload)))) ++ [0x7D]),
         ⟨compute_crc (uid :: fc :: preflight payload),
          5 + (preflight payload).length, .tupleVal [uid]⟩⟩
      = preflight payload := by
  have hshape : binaryAddToFrame binaryFramerNew (binaryBuildPacket uid fc payload)
      = ⟨0x7B :: ((uid :: fc :: (preflight payload
          ++ packU16 (compute_crc (uid :: fc :: preflight payload)))) ++ [0x7D]),
         ⟨0, 0, .intVal 0⟩⟩ := by
    simp [binaryAddToFrame, binaryFramerNew, binaryBuildPacket, packU8,
      Nat.mod_eq_of_lt hu, Nat.mod_eq_of_lt hf]
  constructor
  · rw [hshape]
    exact binaryCheckFrame_accepts uid fc (preflight payload) hno
  · exact binaryGetFrame_accepted uid fc (compute_crc (uid :: fc :: preflight payload))
      (preflight payload) (.tupleVal [uid])

set_option maxRecDepth 8192 in
/-- Witness for C5 amended: uid 1, function code 3, payload `7B` — the
frame is accepted and `get_frame` yields the doubled `7B 7B`. -/
theorem c5_binary_escaping_emit_only_witness :
    binaryCheckFrame (binaryAddToFrame binaryFramerNew (binaryBuildPacket 1 3 [0x7B]))
      = Except.ok (true,
          ⟨0x7B :: ((1 :: 3 :: (preflight [0x7B]
              ++ packU16 (compute_crc (1 :: 3 :: preflight [0x7B])))) ++ [0x7D]),
           ⟨compute_crc (1 :: 3 :: preflight [0x7B]),
            5 + (preflight [0x7B]).length, .tupleVal [1]⟩⟩)
    ∧ binaryGetFrame
        ⟨0x7B :: ((1 :: 3 :: (preflight [0x7B]
            ++ packU16 (compute_crc (1 :: 3 :: preflight [0x7B])))) ++ [0x7D]),
         ⟨compute_crc (1 :: 3 :: preflight [0x7B]),
          5 + (preflight [0x7B]).length, .tupleVal [1]⟩⟩
      = preflight [0x7B] :=
  c5_binary_escaping_emit_only 1 3 [0x7B] (by decide) (by decide) (by decide) (by decide)

/-- C6 (code bug): for every client state — whatever the number of
pending handles, zero, one, two or more — `connection_lost` raises
`TypeError` out of `list(self.transaction)`, because
`DictTransactionManager.__iter__` returns the `dict.keys()` view, which
is not an iterator; no pending handle is ever errbacked and the table is
not cleared, contradicting the claim (and the method's own docstring,
which promises an iterator). -/
theorem c6_connection_lost_raises (st : AsyncClientState) :
    connectionLost st = Except.error PyError.typeError := rfl

/-- C7: for every request the asynchronous server handles, the response
sent carries the request's `transaction_id` and `unit_id` unchanged,
both when `execute` returns a response (or in-band exception response)
and when it raises; in the raising case the response produced is the
`SlaveFailure` exception response for the request's function code. -/
theorem c7_server_response_ids (request : ServerRequest)
    (outcome : Except PyError ServerResponse) :
    (serverExecuteRequest request outcome).transaction_id = request.transaction_id
    ∧ (serverExecuteRequest request outcome).unit_id = request.unit_id
    ∧ (∀ e, outcome = Except.error e →
        (serverExecuteRequest request outcome).function_code
            = request.function_code ||| 0x80
        ∧ (serverExecuteRequest request outcome).exception_code = some SlaveFailure) := by
  cases outcome <;>
    simp [serverExecuteRequest, serverDoException]

/-- Witness for C7: a request with tid 0x1234 and uid 0x11 whose
execution raises is answered by a SlaveFailure exception response that
still carries tid 0x1234 and uid 0x11. -/
theorem c7_server_response_ids_witness :
    (serverExecuteRequest ⟨0x1234, 0, 0x11, 3⟩
        (Except.error PyError.runtimeError)).transaction_id = 0x1234
    ∧ (serverExecuteRequest ⟨0x1234, 0, 0x11, 3⟩
        (Except.error PyError.runtimeError)).unit_id = 0x11
    ∧ (serverExecuteRequest ⟨0x1234, 0, 0x11, 3⟩
        (Except.error PyError.runtimeError)).function_code = 3 ||| 0x80
    ∧ (serverExecuteRequest ⟨0x1234, 0, 0x11, 3⟩
        (Except.error PyError.runtimeError)).exception_code = some SlaveFailure :=
  ⟨(c7_server_response_ids ⟨0x1234, 0, 0x11, 3⟩ (Except.error PyError.runtimeError)).1,
   (c7_server_response_ids ⟨0x1234, 0, 0x11, 3⟩ (Except.error PyError.runtimeError)).2.1,
   ((c7_server_response_ids ⟨0x1234, 0, 0x11, 3⟩ (Except.error PyError.runtimeError)).2.2
      PyError.runtimeError rfl).1,
   ((c7_server_response_ids ⟨0x1234, 0, 0x11, 3⟩ (Except.error PyError.runtimeError)).2.2
      PyError.runtimeError rfl).2⟩

/-- C9: whenever the RTU framer's header length gives a non-positive
end offset (`len <= 2`, including the initial `len = 0`), `get_frame`
returns the empty frame and the state — buffer and header — is exactly
the input state; the embedding is total, so nothing is raised. -/
theorem c9_rtu_get_frame_short (s : RtuFramer) (h : s.header.len ≤ 2) :
    rtuGetFrame s = ([], s) := by
  unfold rtuGetFrame
  rw [if_neg (by omega)]

/-- Witness for C9: a fresh RTU framer (header len 0) holding three
buffered bytes yields the empty frame and an unchanged state. -/
theorem c9_rtu_get_frame_short_witness :
    rtuGetFrame { buffer := [0x00, 0x01, 0x00], header := ⟨0, 0, []⟩ }
      = ([], { buffer := [0x00, 0x01, 0x00], header := ⟨0, 0, []⟩ }) :=
  c9_rtu_get_frame_short { buffer := [0x00, 0x01, 0x00], header := ⟨0, 0, []⟩ }
    (by decide)

/-- A datastore context that rejects every request. -/
def contextAllFalse : MbContext :=
  ⟨fun _ _ _ => false, fun _ _ _ => []⟩

/-- A datastore context that accepts every request. -/
def contextAllTrue : MbContext :=
  ⟨fun _ _ _ => true, fun _ _ _ => []⟩

/-- Witness for C2: count 0x801 (spec S5) gives IllegalValue even on an
all-accepting context; count 1 on an all-rejecting context gives
IllegalAddress. -/
theorem c2_read_coils_range_policy_witness :
    readCoilsExecute 0 0x801 contextAllTrue
        = ReadCoilsResult.exceptionResponse 0x81 IllegalValue
    ∧ readCoilsExecute 0 1 contextAllFalse
        = ReadCoilsResult.exceptionResponse 0x81 IllegalAddress :=
  ⟨((c2_read_coils_range_policy 0 0x801 contextAllTrue contextAllFalse).1 (by decide)).1,
   (c2_read_coils_range_policy 0 1 contextAllFalse contextAllTrue).2 (by decide) rfl⟩

end Pymodbus3
